import Mathlib

/-!
# Verification of the portfolio-intelligence market-data aggregation core

Shallow embedding of `backend/app/services/market_data.py`,
`backend/app/services/competitors.py` and the macro-consuming part of
`backend/app/services/intelligence.py`.

Python floats are modelled as exact rationals (`ℚ`), Python `None` as
`Option.none`, raised exceptions as `Except.error` inputs (a fetcher that
catches internally is a total function on such inputs), and Python `dict`s
as association lists built with an insert-or-overwrite operation that
mirrors `d[k] = v`.  External providers (yfinance, NewsAPI) are parameters:
each embedded fetcher takes the provider's response — or its failure — as
an explicit argument.
-/

namespace PortfolioIntelligence

/-- Python `round(x, 2)` idealised on exact rationals: round half to even
at the second decimal place.  `rheInt q` is the nearest integer to `q`,
ties going to the even integer. -/
def rheInt (q : ℚ) : ℤ :=
  let f : ℤ := ⌊q⌋
  let r : ℚ := q - (f : ℚ)
  if r < 1/2 then f else if 1/2 < r then f + 1 else if 2 ∣ f then f else f + 1

/-- `round(q, 2)` — two-decimal rounding used on every derived metric. -/
def round2 (q : ℚ) : ℚ := (rheInt (q * 100) : ℚ) / 100

/-- Python `a or b` on two optional floats: `a` unless it is `None` or `0.0`. -/
def pyOr (a b : Option ℚ) : Option ℚ :=
  match a with
  | some x => if x = 0 then b else some x
  | none => b

/-- Python dict assignment `d[k] = v` on an association list: overwrite in
place if the key exists, else append. -/
def dictInsert {α : Type} (d : List (String × α)) (k : String) (v : α) :
    List (String × α) :=
  match d with
  | [] => [(k, v)]
  | (k', v') :: rest =>
      if k' = k then (k, v) :: rest else (k', v') :: dictInsert rest k v

/-- Python dict lookup `d.get(k)`. -/
def dictGet {α : Type} (d : List (String × α)) (k : String) : Option α :=
  match d with
  | [] => none
  | (k', v) :: rest => if k' = k then some v else dictGet rest k

/-- `series.iloc[-k:]`: the last `k` elements (the whole list when shorter). -/
def lastN {α : Type} (k : ℕ) (l : List α) : List α := l.drop (l.length - k)

/-- pandas `.mean()` of an extracted column. -/
def mean (l : List ℚ) : ℚ := l.sum / (l.length : ℚ)

/-- The subset of yfinance `ticker.info` fields the service reads
(each `info.get(...)` may be absent). -/
structure TickerInfo where
  currentPrice : Option ℚ
  regularMarketPrice : Option ℚ
  fiftyTwoWeekHigh : Option ℚ
  fiftyTwoWeekLow : Option ℚ
  trailingPE : Option ℚ
  forwardPE : Option ℚ
  marketCap : Option ℚ
  regularMarketPreviousClose : Option ℚ
  regularMarketChangePercent : Option ℚ
deriving DecidableEq

/-- A `ticker.info` response with every field absent. -/
def TickerInfo.empty : TickerInfo :=
  ⟨none, none, none, none, none, none, none, none, none⟩

/-- The per-symbol quote record assembled by `_fetch_stock_data_sync`
(success: `error = none`) and by the error handlers (`error = some e`,
numeric fields and possibly `fetched_at` absent). -/
structure SymbolQuote where
  symbol : String
  current_price : Option ℚ
  fifty_two_week_high : Option ℚ
  fifty_two_week_low : Option ℚ
  pe_ratio : Option ℚ
  forward_pe : Option ℚ
  market_cap : Option ℚ
  perf_1m_pct : Option ℚ
  perf_3m_pct : Option ℚ
  volume_ratio_5d_20d : Option ℚ
  fetched_at : Option String
  error : Option String
deriving DecidableEq

/-- `_fetch_stock_data_sync(symbol)`.  The provider interaction is explicit:
`info` is `ticker.info`; `hist3m` is the `Close` column of
`ticker.history(period="3mo")` (or the exception that call raised);
`histVol` is the `Volume` column of `ticker.history(period="1mo")`
(or its exception); `now` is the timestamp string. -/
def fetchStockDataSync (symbol : String) (info : TickerInfo)
    (hist3m : Except String (List ℚ)) (histVol : Except String (List ℚ))
    (now : String) : SymbolQuote :=
  let perf : Option ℚ × Option ℚ :=
    match hist3m with
    | .error _ => (none, none)
    | .ok closes =>
        if 2 ≤ closes.length then
          let priceNow := closes.getD (closes.length - 1) 0
          let price3mAgo := closes.getD 0 0
          let perf3m := (priceNow - price3mAgo) / price3mAgo * 100
          let oneMonthIdx := max 0 (closes.length - 21)
          let price1mAgo := closes.getD oneMonthIdx 0
          let perf1m := (priceNow - price1mAgo) / price1mAgo * 100
          (some perf1m, some perf3m)
        else (none, none)
  let volumeRatio : Option ℚ :=
    match histVol with
    | .error _ => none
    | .ok vols =>
        if 20 ≤ vols.length then
          let vol5d := mean (lastN 5 vols)
          let vol20d := mean (lastN 20 vols)
          if 0 < vol20d then some (vol5d / vol20d) else none
        else none
  { symbol := symbol
    current_price := pyOr info.currentPrice info.regularMarketPrice
    fifty_two_week_high := info.fiftyTwoWeekHigh
    fifty_two_week_low := info.fiftyTwoWeekLow
    pe_ratio := info.trailingPE
    forward_pe := info.forwardPE
    market_cap := info.marketCap
    perf_1m_pct := perf.1.map round2
    perf_3m_pct := perf.2.map round2
    volume_ratio_5d_20d := volumeRatio.map round2
    fetched_at := some now
    error := none }

/-- The whole synchronous fetch for one symbol: `.ok` carries the provider
responses, `.error` the exception `ticker.info` (or the thread) raised. -/
structure ProviderResponse where
  info : TickerInfo
  hist3m : Except String (List ℚ)
  histVol : Except String (List ℚ)

/-- `fetch_stock_data(symbol)`: runs the sync fetch and converts any raised
exception into a record with only `symbol`, `error`, `fetched_at`. -/
def fetchStockData (symbol : String) (resp : Except String ProviderResponse)
    (now : String) : SymbolQuote :=
  match resp with
  | .ok r => fetchStockDataSync symbol r.info r.hist3m r.histVol now
  | .error e =>
      { symbol := symbol
        current_price := none
        fifty_two_week_high := none
        fifty_two_week_low := none
        pe_ratio := none
        forward_pe := none
        market_cap := none
        perf_1m_pct := none
        perf_3m_pct := none
        volume_ratio_5d_20d := none
        fetched_at := some now
        error := some e }

/-- One macro indicator entry: success carries the three market fields,
failure carries `value = None` and the error string. -/
structure MacroIndicator where
  value : Option ℚ
  previous_close : Option ℚ
  change_pct : Option ℚ
  error : Option String
deriving DecidableEq

/-- `MACRO_SYMBOLS`: the fixed label → yfinance-symbol table, in source order. -/
def MACRO_SYMBOLS : List (String × String) :=
  [("VIX", "^VIX"),
   ("US_10Y_YIELD", "^TNX"),
   ("DXY", "DX-Y.NYB"),
   ("CRUDE_OIL", "CL=F")]

/-- The per-instrument body of the `_fetch_macro_sync` loop: one
`yf.Ticker(yf_symbol).info` call, caught per instrument. -/
def macroEntry (r : Except String TickerInfo) : MacroIndicator :=
  match r with
  | .ok info =>
      { value := info.regularMarketPrice
        previous_close := info.regularMarketPreviousClose
        change_pct := info.regularMarketChangePercent
        error := none }
  | .error e =>
      { value := none, previous_close := none, change_pct := none
        error := some e }

/-- `_fetch_macro_sync()`: builds `result` by looping over `MACRO_SYMBOLS`;
`provider y` is what `yf.Ticker(y).info` returns (or raises) for symbol `y`. -/
def fetchMacroSync (provider : String → Except String TickerInfo) :
    List (String × MacroIndicator) :=
  MACRO_SYMBOLS.foldl
    (fun result p => dictInsert result p.1 (macroEntry (provider p.2))) []

/-- Values of the heterogeneous dict returned by `fetch_macro_indicators`:
indicator sub-dicts, the `fetched_at` timestamp string, or the top-level
error string. -/
inductive MacroValue where
  | indicator : MacroIndicator → MacroValue
  | timestamp : String → MacroValue
  | errorString : String → MacroValue
deriving DecidableEq

/-- `fetch_macro_indicators()`: on success adds `data["fetched_at"]` to the
sync result; if the threaded sync fetch raised, returns
`{"error": ..., "fetched_at": ...}`. -/
def fetchMacroIndicators
    (r : Except String (String → Except String TickerInfo)) (now : String) :
    List (String × MacroValue) :=
  match r with
  | .ok provider =>
      dictInsert ((fetchMacroSync provider).map
          (fun q => (q.1, MacroValue.indicator q.2)))
        "fetched_at" (MacroValue.timestamp now)
  | .error e =>
      [("error", MacroValue.errorString e),
       ("fetched_at", MacroValue.timestamp now)]

/-- `COMPETITOR_MAP`: the static ticker → competitor-list table, verbatim. -/
def COMPETITOR_MAP : List (String × List String) :=
  [("AAPL", ["MSFT", "GOOG", "SAMSUNG", "META"]),
   ("MSFT", ["AAPL", "GOOG", "AMZN", "CRM"]),
   ("GOOG", ["MSFT", "META", "AAPL", "AMZN"]),
   ("GOOGL", ["MSFT", "META", "AAPL", "AMZN"]),
   ("AMZN", ["MSFT", "GOOG", "WMT", "SHOP"]),
   ("META", ["GOOG", "SNAP", "PINS", "TIKTOK"]),
   ("NVDA", ["AMD", "INTC", "AVGO", "QCOM"]),
   ("TSLA", ["RIVN", "GM", "F", "BYD", "LCID"]),
   ("AMD", ["NVDA", "INTC", "QCOM", "AVGO"]),
   ("INTC", ["AMD", "NVDA", "TSM", "QCOM"]),
   ("AVGO", ["QCOM", "TXN", "NVDA", "MRVL"]),
   ("TSM", ["INTC", "SAMSUNG", "GFS", "UMC"]),
   ("JPM", ["BAC", "GS", "MS", "C"]),
   ("GS", ["MS", "JPM", "BAC", "UBS"]),
   ("V", ["MA", "PYPL", "SQ", "ADYEN"]),
   ("MA", ["V", "PYPL", "SQ", "ADYEN"]),
   ("UNH", ["CVS", "CI", "HUM", "ELV"]),
   ("JNJ", ["PFE", "MRK", "ABT", "LLY"]),
   ("LLY", ["NVO", "MRK", "PFE", "ABBV"]),
   ("XOM", ["CVX", "COP", "BP", "SHEL"]),
   ("CVX", ["XOM", "COP", "BP", "TTE"]),
   ("WMT", ["COST", "TGT", "AMZN", "KR"]),
   ("COST", ["WMT", "TGT", "BJ", "KR"]),
   ("DIS", ["NFLX", "CMCSA", "WBD", "PARA"]),
   ("NFLX", ["DIS", "WBD", "PARA", "CMCSA"])]

/-- `get_competitors(symbol)`: case-insensitive lookup, empty if unknown. -/
def getCompetitors (symbol : String) : List String :=
  (dictGet COMPETITOR_MAP symbol.toUpper).getD []

/-- A raw NewsAPI article as parsed from the JSON body (`a.get(...)` may be
absent for each field). -/
structure NewsArticle where
  title : Option String
  sourceName : Option String
  url : Option String
  publishedAt : Option String
deriving DecidableEq

/-- The parsed NewsAPI response body; `articles` may be missing
(`data.get("articles", [])`). -/
structure NewsResponse where
  articles : Option (List NewsArticle)
deriving DecidableEq

/-- The shaped news item the service returns. -/
structure NewsItem where
  title : String
  source : String
  url : String
  published_at : String
deriving DecidableEq

/-- Python truthiness of an optional string field (`if a.get("title")`). -/
def truthyStr (s : Option String) : Bool :=
  match s with
  | some v => v ≠ ""
  | none => false

/-- `fetch_news(symbol)`: `key` is `settings.newsapi_key` (empty string when
unconfigured); `httpResult` is the parsed response of the NewsAPI GET, or
the exception the request/parsing raised. -/
def fetchNews (key : String) (symbol : String)
    (httpResult : Except String NewsResponse) : List NewsItem :=
  if key = "" then []
  else
    let _query := String.intercalate " OR "
      ([symbol] ++ (getCompetitors symbol).take 5)
    match httpResult with
    | .error _ => []
    | .ok data =>
        (data.articles.getD []).filterMap (fun a =>
          if truthyStr a.title then
            some { title := a.title.getD ""
                   source := a.sourceName.getD ""
                   url := a.url.getD ""
                   published_at := a.publishedAt.getD "" }
          else none)

/-- Outcome of one task under `asyncio.gather(..., return_exceptions=True)`:
the task's return value, or the exception object it raised. -/
inductive TaskResult (α : Type) where
  | value : α → TaskResult α
  | exn : String → TaskResult α

/-- The aggregator's per-symbol stock cell:
`r if isinstance(r, dict) else {"symbol": sym, "error": str(r)}`. -/
def stockCell (sym : String) (r : TaskResult SymbolQuote) : SymbolQuote :=
  match r with
  | .value q => q
  | .exn e =>
      { symbol := sym
        current_price := none
        fifty_two_week_high := none
        fifty_two_week_low := none
        pe_ratio := none
        forward_pe := none
        market_cap := none
        perf_1m_pct := none
        perf_3m_pct := none
        volume_ratio_5d_20d := none
        fetched_at := none
        error := some e }

/-- The aggregator's per-symbol news cell:
`r if isinstance(r, list) else []`. -/
def newsCell (_sym : String) (r : TaskResult (List NewsItem)) : List NewsItem :=
  match r with
  | .value l => l
  | .exn _ => []

/-- The `for i, sym in enumerate(symbols): d[sym] = cell(sym, results[i])`
dict-building loop shared by the stocks and news assembly. -/
def buildDict {α β : Type} (cell : String → β → α) (symbols : List String)
    (results : List β) : List (String × α) :=
  (symbols.zip results).foldl
    (fun d p => dictInsert d p.1 (cell p.1 p.2)) []

/-- The consolidated snapshot returned by `fetch_all_market_data`. -/
structure MarketSnapshot where
  stocks : List (String × SymbolQuote)
  macroData : List (String × MacroValue)
  news : List (String × List NewsItem)
  fetched_at : String

/-- `fetch_all_market_data(symbols)`: the gathered per-task outcomes are the
`stockResults` / `newsResults` / `macroResult` arguments (one per scheduled
task, in symbol order), `fetched_at` the timestamp captured at entry. -/
def fetchAllMarketData (symbols : List String)
    (stockResults : List (TaskResult SymbolQuote))
    (newsResults : List (TaskResult (List NewsItem)))
    (macroResult : TaskResult (List (String × MacroValue)))
    (fetched_at : String) : MarketSnapshot :=
  { stocks := buildDict stockCell symbols stockResults
    macroData :=
      match macroResult with
      | .value m => m
      | .exn e => [("error", MacroValue.errorString e)]
    news := buildDict newsCell symbols newsResults
    fetched_at := fetched_at }

/-- The macro part of `intelligence._build_market_snapshot`: keeps the
label → indicator entries, skipping the `"fetched_at"` key and any
non-dict value. -/
def snapshotMacro (macroMap : List (String × MacroValue)) :
    List (String × MacroIndicator) :=
  macroMap.filterMap (fun p =>
    if p.1 = "fetched_at" then none
    else
      match p.2 with
      | .indicator d => some (p.1, d)
      | _ => none)

/-! ## Dictionary lemmas -/

lemma dictInsert_of_dictGet_none {α : Type} (d : List (String × α))
    (k : String) (v : α) (h : dictGet d k = none) :
    dictInsert d k v = d ++ [(k, v)] := by
  induction d with
  | nil => rfl
  | cons hd tl ih =>
      obtain ⟨k', v'⟩ := hd
      rw [dictGet] at h
      by_cases hk : k' = k
      · simp [hk] at h
      · rw [dictInsert]
        simp only [hk, if_false]
        rw [ih (by simpa [hk] using h)]
        simp

lemma dictGet_append_single_none {α : Type} (d : List (String × α))
    (k s : String) (v : α) (h : dictGet d s = none) (hne : k ≠ s) :
    dictGet (d ++ [(k, v)]) s = none := by
  induction d with
  | nil => simp [dictGet, hne]
  | cons hd tl ih =>
      obtain ⟨k', v'⟩ := hd
      rw [dictGet] at h
      by_cases hk : k' = s
      · simp [hk] at h
      · rw [List.cons_append, dictGet]
        simp only [hk, if_false]
        exact ih (by simpa [hk] using h)

lemma buildDict_go_keys {α β : Type} (cell : String → β → α) :
    ∀ (syms : List String) (rs : List β) (d : List (String × α)),
      syms.Nodup → rs.length = syms.length →
      (∀ s ∈ syms, dictGet d s = none) →
      ((syms.zip rs).foldl
          (fun d p => dictInsert d p.1 (cell p.1 p.2)) d).map Prod.fst
        = d.map Prod.fst ++ syms := by
  intro syms
  induction syms with
  | nil => intro rs d _ _ _; simp
  | cons s ss ih =>
      intro rs d hnd hlen hfree
      cases rs with
      | nil => simp at hlen
      | cons r rs' =>
          have hs : dictGet d s = none := hfree s (by simp)
          have hnd' : ss.Nodup := (List.nodup_cons.mp hnd).2
          have hsnot : s ∉ ss := (List.nodup_cons.mp hnd).1
          have hlen' : rs'.length = ss.length := by simpa using hlen
          rw [List.zip_cons_cons, List.foldl_cons,
            dictInsert_of_dictGet_none d s (cell s r) hs]
          rw [ih rs' (d ++ [(s, cell s r)]) hnd' hlen' (fun t ht => by
            exact dictGet_append_single_none d s t (cell s r)
              (hfree t (by simp [ht]))
              (fun hst => hsnot (hst ▸ ht)))]
          simp

lemma buildDict_keys {α β : Type} (cell : String → β → α)
    (syms : List String) (rs : List β) (hnd : syms.Nodup)
    (hlen : rs.length = syms.length) :
    (buildDict cell syms rs).map Prod.fst = syms := by
  have := buildDict_go_keys cell syms rs [] hnd hlen (fun s _ => rfl)
  simpa [buildDict] using this

/-! ## Claims -/

/-- C1: for every non-empty list of unique symbols, `fetch_all_market_data`
returns a snapshot whose `stocks` and `news` mappings contain exactly one
entry per input symbol — no omissions, no duplicates — whatever each
gathered task's outcome was. -/
theorem fetchAll_one_entry_per_symbol
    (symbols : List String) (sr : List (TaskResult SymbolQuote))
    (nr : List (TaskResult (List NewsItem)))
    (mr : TaskResult (List (String × MacroValue))) (t : String)
    (hne : symbols ≠ []) (hnd : symbols.Nodup)
    (hs : sr.length = symbols.length) (hn : nr.length = symbols.length) :
    (fetchAllMarketData symbols sr nr mr t).stocks.map Prod.fst = symbols
    ∧ (fetchAllMarketData symbols sr nr mr t).news.map Prod.fst = symbols
    ∧ ∀ s ∈ symbols,
        ((fetchAllMarketData symbols sr nr mr t).stocks.map Prod.fst).count s
          = 1
        ∧ ((fetchAllMarketData symbols sr nr mr t).news.map Prod.fst).count s
          = 1 := by
  have h1 : (fetchAllMarketData symbols sr nr mr t).stocks.map Prod.fst
      = symbols := buildDict_keys stockCell symbols sr hnd hs
  have h2 : (fetchAllMarketData symbols sr nr mr t).news.map Prod.fst
      = symbols := buildDict_keys newsCell symbols nr hnd hn
  refine ⟨h1, h2, fun s hsm => ?_⟩
  rw [h1, h2]
  exact ⟨List.count_eq_one_of_mem hnd hsm, List.count_eq_one_of_mem hnd hsm⟩

/-- Witness for C1 at a concrete two-symbol batch where the stock task for
one symbol leaked an exception and the macro task failed outright. -/
theorem fetchAll_one_entry_per_symbol_witness :
    (fetchAllMarketData ["AAPL", "MSFT"] [.exn "boom", .exn "x"]
        [.exn "y", .value []] (.exn "z") "t").stocks.map Prod.fst
      = ["AAPL", "MSFT"]
    ∧ (fetchAllMarketData ["AAPL", "MSFT"] [.exn "boom", .exn "x"]
        [.exn "y", .value []] (.exn "z") "t").news.map Prod.fst
      = ["AAPL", "MSFT"]
    ∧ ∀ s ∈ ["AAPL", "MSFT"],
        ((fetchAllMarketData ["AAPL", "MSFT"] [.exn "boom", .exn "x"]
          [.exn "y", .value []] (.exn "z") "t").stocks.map Prod.fst).count s
          = 1
        ∧ ((fetchAllMarketData ["AAPL", "MSFT"] [.exn "boom", .exn "x"]
          [.exn "y", .value []] (.exn "z") "t").news.map Prod.fst).count s
          = 1 :=
  fetchAll_one_entry_per_symbol ["AAPL", "MSFT"] [.exn "boom", .exn "x"]
    [.exn "y", .value []] (.exn "z") "t" (by simp) (by simp) rfl rfl

/-- C2: `fetch_stock_data` is total (a raised provider call becomes a
record holding only `symbol`, `error`, `fetched_at`), and in every record
it returns a set `error` excludes populated numeric fields. -/
theorem fetchStockData_error_excludes_numerics
    (symbol : String) (resp : Except String ProviderResponse) (now : String) :
    (∀ e, fetchStockData symbol (.error e) now =
        ⟨symbol, none, none, none, none, none, none, none, none, none,
          some now, some e⟩)
    ∧ ((fetchStockData symbol resp now).error.isSome →
        (fetchStockData symbol resp now).current_price = none
        ∧ (fetchStockData symbol resp now).fifty_two_week_high = none
        ∧ (fetchStockData symbol resp now).fifty_two_week_low = none
        ∧ (fetchStockData symbol resp now).pe_ratio = none
        ∧ (fetchStockData symbol resp now).forward_pe = none
        ∧ (fetchStockData symbol resp now).market_cap = none
        ∧ (fetchStockData symbol resp now).perf_1m_pct = none
        ∧ (fetchStockData symbol resp now).perf_3m_pct = none
        ∧ (fetchStockData symbol resp now).volume_ratio_5d_20d = none) := by
  refine ⟨fun e => rfl, fun herr => ?_⟩
  cases resp with
  | error e =>
      exact ⟨rfl, rfl, rfl, rfl, rfl, rfl, rfl, rfl, rfl⟩
  | ok r =>
      simp [fetchStockData, fetchStockDataSync] at herr

/-- Witness for C2 at symbol "AAPL" when the provider call raised "boom". -/
theorem fetchStockData_error_excludes_numerics_witness :
    fetchStockData "AAPL" (.error "boom") "t" =
      ⟨"AAPL", none, none, none, none, none, none, none, none, none,
        some "t", some "boom"⟩
    ∧ (fetchStockData "AAPL" (.error "boom") "t").current_price = none
    ∧ (fetchStockData "AAPL" (.error "boom") "t").perf_3m_pct = none :=
  ⟨(fetchStockData_error_excludes_numerics "AAPL" (.error "boom") "t").1
      "boom",
    ((fetchStockData_error_excludes_numerics "AAPL" (.error "boom") "t").2
      rfl).1,
    (((fetchStockData_error_excludes_numerics "AAPL" (.error "boom") "t").2
      rfl).2.2.2.2.2.2).2.1⟩

/-- C3 counterexample: on the two-point series first=100, last=110 the code
computes `perf_3m_pct = 10.0`, not the claimed `5.0`. -/
theorem perf3m_first100_last110_not_five :
    (fetchStockDataSync "AAPL" TickerInfo.empty (.ok [100, 110]) (.ok [])
        "t").perf_3m_pct = some 10
    ∧ (fetchStockDataSync "AAPL" TickerInfo.empty (.ok [100, 110]) (.ok [])
        "t").perf_3m_pct ≠ some 5 := by
  have h : (fetchStockDataSync "AAPL" TickerInfo.empty (.ok [100, 110])
      (.ok []) "t").perf_3m_pct = some 10 := by
    simp [fetchStockDataSync, List.getD]
    norm_num [round2, rheInt]
  exact ⟨h, by rw [h]; simp⟩

/-- C3 amended: on any ≥2-point 3-month close series with first close 100.0
and last close 110.0, the computed `perf_3m_pct` equals 10.0. -/
theorem perf3m_first100_last110_is_ten (sym : String) (info : TickerInfo)
    (hv : Except String (List ℚ)) (now : String) (closes : List ℚ)
    (hlen : 2 ≤ closes.length) (hfirst : closes.getD 0 0 = 100)
    (hlast : closes.getD (closes.length - 1) 0 = 110) :
    (fetchStockDataSync sym info (.ok closes) hv now).perf_3m_pct
      = some 10 := by
  simp only [fetchStockDataSync, if_pos hlen, hfirst, hlast]
  norm_num [round2, rheInt]

/-- Witness for the amended C3 at the series [100, 110]. -/
theorem perf3m_first100_last110_is_ten_witness :
    (fetchStockDataSync "AAPL" TickerInfo.empty (.ok [100, 110]) (.ok [])
        "t").perf_3m_pct = some 10 :=
  perf3m_first100_last110_is_ten "AAPL" TickerInfo.empty (.ok []) "t"
    [100, 110] (by simp) rfl rfl

/-- C4 counterexample: the static competitor map has an entry ("TSLA")
whose competitor list holds 5 symbols, not at most 4. -/
theorem competitorMap_tsla_has_five :
    dictGet COMPETITOR_MAP "TSLA" = some ["RIVN", "GM", "F", "BYD", "LCID"]
    ∧ ¬ (∀ p ∈ COMPETITOR_MAP, p.2.length ≤ 4) := by
  constructor
  · simp [COMPETITOR_MAP, dictGet]
  · intro h
    have := h ("TSLA", ["RIVN", "GM", "F", "BYD", "LCID"])
      (by simp [COMPETITOR_MAP])
    simp at this

/-- C4 amended: every entry of the static competitor map associates a
symbol with an ordered sequence of at most 5 competitor symbols (all
entries have 4, except TSLA which has 5). -/
theorem competitorMap_at_most_five (p : String × List String)
    (hp : p ∈ COMPETITOR_MAP) : p.2.length ≤ 5 := by
  fin_cases hp <;> simp

/-- Witness for the amended C4 at the TSLA entry. -/
theorem competitorMap_at_most_five_witness :
    (("TSLA", ["RIVN", "GM", "F", "BYD", "LCID"]) ∈ COMPETITOR_MAP)
    ∧ (["RIVN", "GM", "F", "BYD", "LCID"] : List String).length ≤ 5 :=
  ⟨by simp [COMPETITOR_MAP],
    competitorMap_at_most_five ("TSLA", ["RIVN", "GM", "F", "BYD", "LCID"])
      (by simp [COMPETITOR_MAP])⟩

/-- C5: `perf_3m_pct` is `round2` of (last − first)/first × 100 on any
3-month close series with ≥2 points, and null on shorter series or when
the history fetch raised. -/
theorem perf3m_formula (sym : String) (info : TickerInfo)
    (hv : Except String (List ℚ)) (now : String) :
    (∀ closes : List ℚ, 2 ≤ closes.length →
      (fetchStockDataSync sym info (.ok closes) hv now).perf_3m_pct
        = some (round2
            ((closes.getD (closes.length - 1) 0 - closes.getD 0 0)
              / closes.getD 0 0 * 100)))
    ∧ (∀ closes : List ℚ, closes.length < 2 →
      (fetchStockDataSync sym info (.ok closes) hv now).perf_3m_pct = none)
    ∧ (∀ e, (fetchStockDataSync sym info (.error e) hv now).perf_3m_pct
        = none) := by
  refine ⟨fun closes hlen => ?_, fun closes hlen => ?_, fun e => rfl⟩
  · simp only [fetchStockDataSync, if_pos hlen]; rfl
  · simp only [fetchStockDataSync,
      if_neg (by omega : ¬ 2 ≤ closes.length)]; rfl

/-- Witness for C5 at the series [100, 110], the singleton [42], and a
raised history fetch. -/
theorem perf3m_formula_witness :
    (fetchStockDataSync "AAPL" TickerInfo.empty (.ok [100, 110]) (.ok [])
        "t").perf_3m_pct
      = some (round2 ((([(100 : ℚ), 110].getD 1 0) - [(100 : ℚ), 110].getD 0 0)
          / [(100 : ℚ), 110].getD 0 0 * 100))
    ∧ (fetchStockDataSync "AAPL" TickerInfo.empty (.ok [42]) (.ok [])
        "t").perf_3m_pct = none
    ∧ (fetchStockDataSync "AAPL" TickerInfo.empty (.error "down") (.ok [])
        "t").perf_3m_pct = none :=
  ⟨(perf3m_formula "AAPL" TickerInfo.empty (.ok []) "t").1 [100, 110]
      (by simp),
    (perf3m_formula "AAPL" TickerInfo.empty (.ok []) "t").2.1 [42] (by simp),
    (perf3m_formula "AAPL" TickerInfo.empty (.ok []) "t").2.2 "down"⟩

/-- C6: `perf_1m_pct` references the close at index `max 0 (N − 21)` of the
3-month window — clamped to index 0 when the window holds at most 21
points — and is null when the window has fewer than 2 points. -/
theorem perf1m_formula (sym : String) (info : TickerInfo)
    (hv : Except String (List ℚ)) (now : String) :
    (∀ closes : List ℚ, 2 ≤ closes.length →
      (fetchStockDataSync sym info (.ok closes) hv now).perf_1m_pct
        = some (round2
            ((closes.getD (closes.length - 1) 0
                - closes.getD (max 0 (closes.length - 21)) 0)
              / closes.getD (max 0 (closes.length - 21)) 0 * 100)))
    ∧ (∀ closes : List ℚ, 2 ≤ closes.length → closes.length ≤ 21 →
      (fetchStockDataSync sym info (.ok closes) hv now).perf_1m_pct
        = some (round2
            ((closes.getD (closes.length - 1) 0 - closes.getD 0 0)
              / closes.getD 0 0 * 100)))
    ∧ (∀ closes : List ℚ, closes.length < 2 →
      (fetchStockDataSync sym info (.ok closes) hv now).perf_1m_pct
        = none) := by
  refine ⟨fun closes hlen => ?_, fun closes hlen h21 => ?_,
    fun closes hlen => ?_⟩
  · simp only [fetchStockDataSync, if_pos hlen]; rfl
  · have hidx : max 0 (closes.length - 21) = 0 := by omega
    simp only [fetchStockDataSync, if_pos hlen, hidx]; rfl
  · simp only [fetchStockDataSync,
      if_neg (by omega : ¬ 2 ≤ closes.length)]; rfl

/-- Witness for C6 at the two-point series [100, 110] (window shorter than
21, so the reference index clamps to 0) and at the singleton [42]. -/
theorem perf1m_formula_witness :
    (fetchStockDataSync "AAPL" TickerInfo.empty (.ok [100, 110]) (.ok [])
        "t").perf_1m_pct
      = some (round2 ((([(100 : ℚ), 110].getD 1 0) - [(100 : ℚ), 110].getD 0 0)
          / [(100 : ℚ), 110].getD 0 0 * 100))
    ∧ (fetchStockDataSync "AAPL" TickerInfo.empty (.ok [42]) (.ok [])
        "t").perf_1m_pct = none :=
  ⟨(perf1m_formula "AAPL" TickerInfo.empty (.ok []) "t").2.1 [100, 110]
      (by simp) (by simp),
    (perf1m_formula "AAPL" TickerInfo.empty (.ok []) "t").2.2 [42]
      (by simp)⟩

/-- C7 counterexample: a 20-point volume series whose 20-day mean is
nonzero but negative gets a null ratio — the code requires `vol_20d > 0`,
not merely a nonzero mean. -/
theorem volumeRatio_nonzero_mean_counterexample :
    mean (lastN 20 (List.replicate 20 (-1 : ℚ))) ≠ 0
    ∧ (List.replicate 20 (-1 : ℚ)).length = 20
    ∧ (fetchStockDataSync "AAPL" TickerInfo.empty (.ok [])
        (.ok (List.replicate 20 (-1 : ℚ))) "t").volume_ratio_5d_20d
      = none := by
  have hmean : mean (lastN 20 (List.replicate 20 (-1 : ℚ))) = -1 := by
    simp [mean, lastN, List.sum_replicate]
    norm_num
  refine ⟨by rw [hmean]; norm_num, by simp, ?_⟩
  simp only [fetchStockDataSync]
  rw [if_pos (by simp), if_neg (by rw [hmean]; norm_num)]
  rfl

/-- C7 amended: on a ~1-month volume series with ≥20 points and a positive
20-day mean, the ratio is `round2` of mean(last 5)/mean(last 20); it is
null when the series is shorter, when the 20-day mean is not positive, or
when the history fetch raised. -/
theorem volumeRatio_formula (sym : String) (info : TickerInfo)
    (h3 : Except String (List ℚ)) (now : String) :
    (∀ vols : List ℚ, 20 ≤ vols.length → 0 < mean (lastN 20 vols) →
      (fetchStockDataSync sym info h3 (.ok vols) now).volume_ratio_5d_20d
        = some (round2 (mean (lastN 5 vols) / mean (lastN 20 vols))))
    ∧ (∀ vols : List ℚ, vols.length < 20 →
      (fetchStockDataSync sym info h3 (.ok vols) now).volume_ratio_5d_20d
        = none)
    ∧ (∀ vols : List ℚ, mean (lastN 20 vols) ≤ 0 →
      (fetchStockDataSync sym info h3 (.ok vols) now).volume_ratio_5d_20d
        = none)
    ∧ (∀ e, (fetchStockDataSync sym info h3 (.error e)
        now).volume_ratio_5d_20d = none) := by
  refine ⟨fun vols hlen hpos => ?_, fun vols hlen => ?_,
    fun vols hnp => ?_, fun e => rfl⟩
  · simp only [fetchStockDataSync]
    rw [if_pos hlen, if_pos hpos]
    rfl
  · simp only [fetchStockDataSync]
    rw [if_neg (by omega : ¬ 20 ≤ vols.length)]
    rfl
  · simp only [fetchStockDataSync]
    by_cases hlen : 20 ≤ vols.length
    · rw [if_pos hlen, if_neg (by exact not_lt.mpr hnp)]
      rfl
    · rw [if_neg hlen]
      rfl

/-- The 20-day volume series of the spec's example: last 5 volumes average
1,500,000 and all 20 average 1,000,000. -/
def exampleVols : List ℚ :=
  List.replicate 5 500000 ++ List.replicate 10 1000000
    ++ List.replicate 5 1500000

/-- Witness for the amended C7: the example series yields ratio 1.5, and a
19-point series yields null. -/
theorem volumeRatio_formula_witness :
    (fetchStockDataSync "AAPL" TickerInfo.empty (.ok []) (.ok exampleVols)
        "t").volume_ratio_5d_20d
      = some (round2 (mean (lastN 5 exampleVols) / mean (lastN 20 exampleVols)))
    ∧ round2 (mean (lastN 5 exampleVols) / mean (lastN 20 exampleVols))
      = 3/2
    ∧ (fetchStockDataSync "AAPL" TickerInfo.empty (.ok [])
        (.ok (List.replicate 19 (1 : ℚ))) "t").volume_ratio_5d_20d
      = none := by
  have h5 : mean (lastN 5 exampleVols) = 1500000 := by
    simp [exampleVols, mean, lastN, List.replicate, List.sum_cons]
    norm_num
  have h20 : mean (lastN 20 exampleVols) = 1000000 := by
    simp [exampleVols, mean, lastN, List.replicate, List.sum_cons]
    norm_num
  refine ⟨(volumeRatio_formula "AAPL" TickerInfo.empty (.ok []) "t").1
      exampleVols (by simp [exampleVols]) (by rw [h20]; norm_num),
    ?_,
    (volumeRatio_formula "AAPL" TickerInfo.empty (.ok []) "t").2.1
      (List.replicate 19 (1 : ℚ)) (by simp)⟩
  rw [h5, h20]
  norm_num [round2, rheInt]

/-- C8: the macro fetch resolves each of the 4 labelled instruments
independently — a label's entry is determined by that instrument's own
fetch alone, carrying the fetched values on success and an error-only
record on failure — and a wholesale failure of the threaded fetch yields a
mapping with a single top-level error string and a `fetched_at`
timestamp. -/
theorem fetchMacro_isolated_per_instrument :
    (∀ (provider : String → Except String TickerInfo) (label ySym : String),
      (label, ySym) ∈ MACRO_SYMBOLS →
        dictGet (fetchMacroSync provider) label
          = some (macroEntry (provider ySym))
        ∧ (∀ info, provider ySym = .ok info →
            macroEntry (provider ySym)
              = ⟨info.regularMarketPrice, info.regularMarketPreviousClose,
                  info.regularMarketChangePercent, none⟩)
        ∧ (∀ e, provider ySym = .error e →
            macroEntry (provider ySym) = ⟨none, none, none, some e⟩))
    ∧ (∀ (e now : String), fetchMacroIndicators (.error e) now
        = [("error", MacroValue.errorString e),
           ("fetched_at", MacroValue.timestamp now)]) := by
  refine ⟨fun provider label ySym hmem => ?_, fun e now => rfl⟩
  refine ⟨?_, fun info h => by rw [h]; rfl, fun e h => by rw [h]; rfl⟩
  simp only [MACRO_SYMBOLS, List.mem_cons, List.not_mem_nil, or_false,
    Prod.mk.injEq] at hmem
  rcases hmem with ⟨rfl, rfl⟩ | ⟨rfl, rfl⟩ | ⟨rfl, rfl⟩ | ⟨rfl, rfl⟩ <;>
    simp [fetchMacroSync, MACRO_SYMBOLS, dictInsert, dictGet]

/-- Witness for C8: a provider failing exactly on the 10-year-yield
instrument gives that label an error-only entry, leaves VIX populated, and
a wholesale failure gives the two-key error mapping. -/
theorem fetchMacro_isolated_per_instrument_witness :
    dictGet (fetchMacroSync
        (fun y => if y = "^TNX" then .error "down"
          else .ok ⟨none, some 17, none, none, none, none, none, some 16,
            some 1⟩)) "US_10Y_YIELD"
      = some ⟨none, none, none, some "down"⟩
    ∧ dictGet (fetchMacroSync
        (fun y => if y = "^TNX" then .error "down"
          else .ok ⟨none, some 17, none, none, none, none, none, some 16,
            some 1⟩)) "VIX"
      = some ⟨some 17, some 16, some 1, none⟩
    ∧ fetchMacroIndicators (.error "outage") "t"
      = [("error", MacroValue.errorString "outage"),
         ("fetched_at", MacroValue.timestamp "t")] := by
  refine ⟨?_, ?_, fetchMacro_isolated_per_instrument.2 "outage" "t"⟩
  · rw [(fetchMacro_isolated_per_instrument.1
      (fun y => if y = "^TNX" then .error "down"
        else .ok ⟨none, some 17, none, none, none, none, none, some 16,
          some 1⟩) "US_10Y_YIELD" "^TNX" (by simp [MACRO_SYMBOLS])).1]
    rfl
  · rw [(fetchMacro_isolated_per_instrument.1
      (fun y => if y = "^TNX" then .error "down"
        else .ok ⟨none, some 17, none, none, none, none, none, some 16,
          some 1⟩) "VIX" "^VIX" (by simp [MACRO_SYMBOLS])).1]
    rfl

/-- C9: `fetch_news` is total and returns an empty list — not an error —
when no API key is configured, when the HTTP request raised, or when the
provider returned zero (or no) articles. -/
theorem fetchNews_soft_fail :
    (∀ (sym : String) (r : Except String NewsResponse),
      fetchNews "" sym r = [])
    ∧ (∀ (key sym e : String), fetchNews key sym (.error e) = [])
    ∧ (∀ (key sym : String) (data : NewsResponse),
        data.articles = some [] → fetchNews key sym (.ok data) = [])
    ∧ (∀ (key sym : String) (data : NewsResponse),
        data.articles = none → fetchNews key sym (.ok data) = []) := by
  refine ⟨fun sym r => rfl, fun key sym e => ?_, fun key sym data h => ?_,
    fun key sym data h => ?_⟩
  · by_cases hk : key = "" <;> simp [fetchNews, hk]
  · by_cases hk : key = "" <;> simp [fetchNews, hk, h]
  · by_cases hk : key = "" <;> simp [fetchNews, hk, h]

/-- Witness for C9: no key, a raised request, an empty article list, and a
missing article list each yield the empty sequence. -/
theorem fetchNews_soft_fail_witness :
    fetchNews "" "AAPL" (.ok ⟨some [⟨some "headline", none, none, none⟩]⟩)
      = []
    ∧ fetchNews "k" "AAPL" (.error "timeout") = []
    ∧ fetchNews "k" "AAPL" (.ok ⟨some []⟩) = []
    ∧ fetchNews "k" "AAPL" (.ok ⟨none⟩) = [] :=
  ⟨fetchNews_soft_fail.1 "AAPL"
      (.ok ⟨some [⟨some "headline", none, none, none⟩]⟩),
    fetchNews_soft_fail.2.1 "k" "AAPL" "timeout",
    fetchNews_soft_fail.2.2.1 "k" "AAPL" ⟨some []⟩ rfl,
    fetchNews_soft_fail.2.2.2 "k" "AAPL" ⟨none⟩ rfl⟩

/-- C10: on success the macro mapping carries, besides the 4 instrument
labels, a fifth top-level key `"fetched_at"` holding a timestamp string
rather than an indicator record, and the snapshot builder's iteration over
label → indicator entries skips exactly that key. -/
theorem fetchMacro_has_fetched_at_key
    (provider : String → Except String TickerInfo) (now : String) :
    (fetchMacroIndicators (.ok provider) now).map Prod.fst
      = ["VIX", "US_10Y_YIELD", "DXY", "CRUDE_OIL", "fetched_at"]
    ∧ dictGet (fetchMacroIndicators (.ok provider) now) "fetched_at"
      = some (MacroValue.timestamp now)
    ∧ (snapshotMacro (fetchMacroIndicators (.ok provider) now)).map Prod.fst
      = ["VIX", "US_10Y_YIELD", "DXY", "CRUDE_OIL"] := by
  refine ⟨?_, ?_, ?_⟩ <;>
    simp [fetchMacroIndicators, fetchMacroSync, MACRO_SYMBOLS, dictInsert,
      dictGet, snapshotMacro]

end PortfolioIntelligence
